import Mathlib

/-!
# Carbon Karma: badge ledger and footprint estimator

A shallow embedding of `src/js/background.js` (class `CarbonKarmaBackground`), of the
session accumulator in `src/js/content_script.js` (class `CarbonKarmaTracker`) and of the
achievement predicates in `src/js/popup.js` (class `CarbonKarmaPopup`).

Modelling conventions.
* A JavaScript number is modelled by an exact rational (`ℚ`): finite values only,
  rounding of doubles is not modelled.  The constants that occur (`4.6 * 2.5`, `4.6 * 0.6`)
  have the same value in both readings.
* `chrome.storage.sync` is a record of optional keys that is read and written without failure.
* `Date.now()` readings and the answer of the remote service are inputs of a call.
* A thrown exception is the `error` case of `Except`.
-/

set_option autoImplicit false

namespace CarbonKarma

/-! ## Badge ledger (`initializeStorage`, `updateBadges`) -/

/-- The `badges` document kept in storage. -/
structure Badges where
  leafBadges : ℚ
  totalSessions : ℚ
  greenSessions : ℚ
  carbonSaved : ℚ
  deriving DecidableEq

/-- The `stats` document kept in storage. -/
structure Stats where
  totalCarbonEmitted : ℚ
  totalTimeSpent : ℚ
  sitesVisited : ℚ
  deriving DecidableEq

/-- The keys of `chrome.storage.sync` that the ledger reads; `none` is a key never written. -/
structure Storage where
  badges : Option Badges
  stats : Option Stats
  deriving DecidableEq

/-- The fields of `sessionData` that `updateBadges` reads. -/
structure SessionData where
  carbonEmitted : ℚ
  timeSpent : ℚ
  threshold : ℚ
  deriving DecidableEq

/-- The literal `{ leafBadges: 0, totalSessions: 0, greenSessions: 0, carbonSaved: 0 }`. -/
def defaultBadges : Badges :=
  { leafBadges := 0, totalSessions := 0, greenSessions := 0, carbonSaved := 0 }

/-- The literal `{ totalCarbonEmitted: 0, totalTimeSpent: 0, sitesVisited: 0 }`. -/
def defaultStats : Stats :=
  { totalCarbonEmitted := 0, totalTimeSpent := 0, sitesVisited := 0 }

/-- Storage of a fresh installation: nothing written yet. -/
def emptyStorage : Storage := { badges := none, stats := none }

/-- Source `initializeStorage`: a missing `badges` or `stats` key gets its default document. -/
def initializeStorage (stored : Storage) : Storage :=
  let s1 : Storage :=
    match stored.badges with
    | none => { stored with badges := some defaultBadges }
    | some _ => stored
  match s1.stats with
  | none => { s1 with stats := some defaultStats }
  | some _ => s1

/-- The expression `stored.badges || { leafBadges: 0, ... }`. -/
def Storage.ledger (stored : Storage) : Badges := stored.badges.getD defaultBadges

/-- The expression `stored.stats || { totalCarbonEmitted: 0, ... }`. -/
def Storage.usage (stored : Storage) : Stats := stored.stats.getD defaultStats

/-- Source `updateBadges`, as the pair `{ badges, stats }` it returns and writes. -/
def updateBadges (stored : Storage) (sessionData : SessionData) : Badges × Stats :=
  let badges := stored.ledger
  let stats := stored.usage
  -- Update session stats
  let badges := { badges with totalSessions := badges.totalSessions + 1 }
  let stats := { stats with totalCarbonEmitted := stats.totalCarbonEmitted + sessionData.carbonEmitted }
  let stats := { stats with totalTimeSpent := stats.totalTimeSpent + sessionData.timeSpent }
  let stats := { stats with sitesVisited := stats.sitesVisited + 1 }
  -- Check if session qualifies for green badge
  let badges :=
    if sessionData.carbonEmitted < sessionData.threshold then
      let badges := { badges with greenSessions := badges.greenSessions + 1 }
      let badges := { badges with leafBadges := badges.leafBadges + 1 }
      { badges with carbonSaved := badges.carbonSaved + (sessionData.threshold - sessionData.carbonEmitted) }
    else
      { badges with leafBadges := max 0 (badges.leafBadges - 1) }
  (badges, stats)

/-- The storage after `updateBadges`: `chrome.storage.sync.set({ badges, stats })`. -/
def finalize (stored : Storage) (sessionData : SessionData) : Storage :=
  let r := updateBadges stored sessionData
  { stored with badges := some r.1, stats := some r.2 }

/-- A sequence of finalized sessions applied in turn. -/
def finalizeAll (stored : Storage) (sessions : List SessionData) : Storage :=
  sessions.foldl finalize stored

/-! ## JavaScript values and the platform `URL` parser -/

/-- A JavaScript value, as far as the estimator distinguishes values. -/
inductive JSVal where
  | undefined
  | null
  | bool (b : Bool)
  | num (q : ℚ)
  | str (s : String)
  | arr (items : List JSVal)
  | obj (fields : List (String × JSVal))

/-- JavaScript truthiness (`ToBoolean`). -/
def JSVal.truthy : JSVal → Bool
  | .undefined => false
  | .null => false
  | .bool b => b
  | .num q => decide (q ≠ 0)
  | .str s => decide (s ≠ "")
  | .arr _ => true
  | .obj _ => true

/-- The operator `a || b` for an already evaluated right operand. -/
def JSVal.orElse (a b : JSVal) : JSVal := if a.truthy then a else b

/-- An exception value. -/
inductive JSError where
  | typeError
  | syntaxError
  | networkError
  | apiRequestFailed (status : Nat)
  deriving DecidableEq

/-- Property read `data.name`: throws on `null` and `undefined`, own fields of an object,
`undefined` on every other value (the names read here are no built-in properties). -/
def JSVal.getProp (data : JSVal) (name : String) : Except JSError JSVal :=
  match data with
  | .undefined => .error .typeError
  | .null => .error .typeError
  | .obj fields => .ok ((fields.lookup name).getD .undefined)
  | _ => .ok .undefined

/-- JavaScript `s.includes(d)` on the characters of the two strings. -/
def includesChars : List Char → List Char → Bool
  | [], d => d.isEmpty
  | c :: cs, d => d.isPrefixOf (c :: cs) || includesChars cs d

/-- JavaScript `s.includes(d)`. -/
def includes (s d : String) : Bool := includesChars s.data d.data

/-- The backslash, which the URL parser treats as a slash in these schemes. -/
def backslash : Char := Char.ofNat 92

/-- The schemes the URL standard calls special and that always carry a host. -/
def hostSchemes : List String := ["http", "https", "ws", "wss", "ftp"]

/-- Characters allowed in a scheme after its first letter. -/
def isSchemeChar (c : Char) : Bool := c.isAlphanum || c == '+' || c == '-' || c == '.'

/-- Code points the URL standard forbids in a domain. -/
def isForbiddenHostChar (c : Char) : Bool :=
  c.toNat ≤ 32 || c.toNat == 127 ||
    "#/:<>?@[]^|%".data.contains c || c == backslash

/-- Leading and trailing C0 controls and spaces are stripped, tabs and newlines removed. -/
def stripInput (cs : List Char) : List Char :=
  let cs := cs.dropWhile (fun c => c.toNat ≤ 32)
  let cs := (cs.reverse.dropWhile (fun c => c.toNat ≤ 32)).reverse
  cs.filter (fun c => !(c.toNat == 9 || c.toNat == 10 || c.toNat == 13))

/-- Splits `scheme:rest`; the scheme is lower-cased.  No scheme: the URL is invalid. -/
def splitScheme (cs : List Char) : Option (List Char × List Char) :=
  match cs.span isSchemeChar with
  | (c :: scheme, ':' :: rest) =>
    if c.isAlpha then some ((c :: scheme).map Char.toLower, rest) else none
  | _ => none

/-- The part of an authority after the last `@` (all of it when there is none). -/
def dropUserinfo (authority : List Char) : List Char :=
  (authority.reverse.takeWhile (fun c => c != '@')).reverse

/-- The decimal value of a run of digits. -/
def portValue (digits : List Char) : Nat :=
  digits.foldl (fun n c => 10 * n + (c.toNat - 48)) 0

/-- The host of `host[:port]`, an address in brackets kept whole; `none` when what follows
the host is not a colon with a port number of at most 65535. -/
def dropPort (hostport : List Char) : Option (List Char) :=
  let parts : List Char × List Char :=
    match hostport with
    | '[' :: _ =>
      (hostport.takeWhile (fun c => c != ']') ++ [']'],
        (hostport.dropWhile (fun c => c != ']')).drop 1)
    | _ => hostport.span (fun c => c != ':')
  match parts.2 with
  | [] => some parts.1
  | ':' :: digits =>
    if digits.all Char.isDigit && portValue digits ≤ 65535 then some parts.1 else none
  | _ => none

/-- The platform expression `new URL(url).hostname`, `none` when the constructor throws.
It covers absolute URLs `scheme:[//][userinfo@]host[:port][/path][?query][#fragment]` with
a host written in ASCII: the host of the five host-carrying schemes is lower-cased;
percent-decoding, IDNA and the canonical form of numeric addresses are not modelled. -/
def hostname (url : String) : Option String :=
  match splitScheme (stripInput url.data) with
  | none => none
  | some (scheme, rest) =>
    if hostSchemes.contains (String.mk scheme) then
      let rest := rest.dropWhile (fun c => c == '/' || c == backslash)
      let authority := rest.takeWhile
        (fun c => !(c == '/' || c == backslash || c == '?' || c == '#'))
      match dropPort (dropUserinfo authority) with
      | none => none
      | some host =>
        let host := host.map Char.toLower
        if host.isEmpty then none
        else if host.head? != some '[' && host.any isForbiddenHostChar then none
        else some (String.mk host)
    else
      match rest with
      | '/' :: '/' :: rest =>
        let authority := rest.takeWhile (fun c => !(c == '/' || c == '?' || c == '#'))
        (dropPort (dropUserinfo authority)).map String.mk
      | _ => some ""

/-! ## Footprint estimator (`estimateCarbonFootprint`, `getCarbonFootprint`) -/

/-- The object both `estimateCarbonFootprint` and `getCarbonFootprint` return.  `estimated`
is `undefined` on an object built from a remote answer, which has no such field. -/
structure FootprintEstimate where
  carbonPerView : JSVal
  cleanerThan : JSVal
  renewable : JSVal
  bytes : JSVal
  timestamp : Int
  estimated : JSVal

/-- An estimate object seen as a value, as when it is stored in a field of another object. -/
def FootprintEstimate.toJSVal (e : FootprintEstimate) : JSVal :=
  .obj [("carbonPerView", e.carbonPerView), ("cleanerThan", e.cleanerThan),
    ("renewable", e.renewable), ("bytes", e.bytes), ("timestamp", .num e.timestamp),
    ("estimated", e.estimated)]

/-- The list `highCarbonDomains`. -/
def highCarbonDomains : List String :=
  ["youtube.com", "netflix.com", "amazon.com", "facebook.com"]

/-- The list `lowCarbonDomains`. -/
def lowCarbonDomains : List String := ["wikipedia.org", "stackoverflow.com", "github.com"]

/-- Source `estimateCarbonFootprint`; `now` is the reading of `Date.now()`. -/
def estimateCarbonFootprint (url : String) (now : Int) : Except JSError FootprintEstimate :=
  match hostname url with
  | none => .error .typeError
  | some domain =>
    -- Basic estimation: average website emits ~4.6g CO2 per page view
    let baseCO2 : ℚ := 4.6
    let baseCO2 :=
      if highCarbonDomains.any (fun d => includes domain d) then baseCO2 * 2.5
      else if lowCarbonDomains.any (fun d => includes domain d) then baseCO2 * 0.6
      else baseCO2
    .ok { carbonPerView := .num baseCO2, cleanerThan := .num 50, renewable := .bool false,
          bytes := .num 2000000, timestamp := now, estimated := .bool true }

/-- A value of the map `apiCache`: `{ data, timestamp }`. -/
structure CacheEntry where
  data : FootprintEstimate
  timestamp : Int

/-- The map `apiCache`, newest binding of a key first. -/
abbrev ApiCache := List (String × CacheEntry)

/-- The template `carbon_${url}`. -/
def cacheKey (url : String) : String := "carbon_" ++ url

/-- Map read `apiCache.get(key)`, `none` when `apiCache.has(key)` is false. -/
def ApiCache.get (cache : ApiCache) (key : String) : Option CacheEntry := cache.lookup key

/-- Map write `apiCache.set(key, entry)`. -/
def ApiCache.set (cache : ApiCache) (key : String) (entry : CacheEntry) : ApiCache :=
  (key, entry) :: cache.filter (fun kv => kv.1 != key)

/-- What the remote service does when asked: `fetch` rejects, or a response with a status
whose `json()` yields a payload (`none`: the body is no JSON and `json()` rejects). -/
inductive RemoteOutcome where
  | networkError
  | response (status : Nat) (body : Option JSVal)

/-- The property `response.ok`. -/
def statusOk (status : Nat) : Bool := 200 ≤ status && status ≤ 299

/-- The environment of one call of `getCarbonFootprint`: the clock reading of the cache
check, what the remote service answers if asked, and the later clock readings (in the
heuristic, for `result.timestamp`, for the cache entry). -/
structure Call where
  now : Int
  remote : RemoteOutcome
  tEstimate : Int
  tResult : Int
  tCache : Int

/-- What one call of `getCarbonFootprint` does: the value returned or thrown, the cache
afterwards, and the URLs for which the remote service was asked. -/
structure Outcome where
  result : Except JSError FootprintEstimate
  apiCache : ApiCache
  lookups : List String

/-- The body of the `try` block of `getCarbonFootprint`: the result and the cache entry. -/
def fetchFootprint (url : String) (call : Call) : Except JSError FootprintEstimate :=
  match call.remote with
  | .networkError => .error .networkError
  | .response status body =>
    if !statusOk status then .error (.apiRequestFailed status)
    else
      match body with
      | none => .error .syntaxError
      | some data => do
        let c ← data.getProp "c"
        let carbonPerView ←
          if c.truthy then pure c
          else (estimateCarbonFootprint url call.tEstimate).map FootprintEstimate.toJSVal
        let p ← data.getProp "p"
        let green ← data.getProp "green"
        let bytes ← data.getProp "bytes"
        pure { carbonPerView := carbonPerView, cleanerThan := p.orElse (.num 50),
               renewable := green.orElse (.bool false), bytes := bytes.orElse (.num 0),
               timestamp := call.tResult, estimated := .undefined }

/-- Source `getCarbonFootprint`. -/
def getCarbonFootprint (apiCache : ApiCache) (url : String) (call : Call) : Outcome :=
  let key := cacheKey url
  -- Check cache first (valid for 1 hour)
  let hit : Option FootprintEstimate :=
    match apiCache.get key with
    | some cached => if call.now - cached.timestamp < 3600000 then some cached.data else none
    | none => none
  match hit with
  | some data => { result := .ok data, apiCache := apiCache, lookups := [] }
  | none =>
    match fetchFootprint url call with
    | .ok result =>
      { result := .ok result,
        apiCache := apiCache.set key { data := result, timestamp := call.tCache },
        lookups := [url] }
    | .error _ =>
      { result := estimateCarbonFootprint url call.tEstimate, apiCache := apiCache,
        lookups := [url] }

/-! ## Regional carbon intensity (`getRegionalCarbonIntensity`) -/

/-- The object literal `intensityData` (gCO2/kWh). -/
def intensityData : List (String × ℚ) :=
  [("US", 386), ("GB", 233), ("DE", 338), ("FR", 57), ("CA", 130), ("AU", 634), ("JP", 518),
   ("CN", 681), ("IN", 708), ("BR", 82), ("NO", 17), ("IS", 0), ("SE", 13)]

/-- The names every object literal inherits from `Object.prototype`. -/
def objectPrototypeNames : List String :=
  ["constructor", "__defineGetter__", "__defineSetter__", "hasOwnProperty",
   "__lookupGetter__", "__lookupSetter__", "isPrototypeOf", "propertyIsEnumerable",
   "toString", "valueOf", "__proto__", "toLocaleString"]

/-- What `intensityData[country] || 475` evaluates to: a number, or the inherited member
(a function or the prototype object, both truthy) of that name. -/
inductive Intensity where
  | value (q : ℚ)
  | inherited (name : String)
  deriving DecidableEq

/-- Source `getRegionalCarbonIntensity`. -/
def getRegionalCarbonIntensity (country : String) : Intensity :=
  match intensityData.lookup country with
  | some q => if q ≠ 0 then .value q else .value 475 -- Global average fallback
  | none =>
    if objectPrototypeNames.contains country then .inherited country
    else .value 475 -- Global average fallback

/-! ## Session accumulator (`CarbonKarmaTracker`) -/

/-- The field of `carbonData` that the tracker reads. -/
structure CarbonData where
  carbonPerView : JSVal

/-- The fields of a `CarbonKarmaTracker` that the tick reads and writes. -/
structure Tracker where
  startTime : Int
  carbonData : Option CarbonData
  energyUsage : ℚ
  timeSpent : Int
  cpuUsage : ℚ
  threshold : ℚ
  isTracking : Bool

/-- The fields the constructor sets, `now` being its reading of `Date.now()`. -/
def Tracker.new (now : Int) : Tracker :=
  { startTime := now, carbonData := none, energyUsage := 0, timeSpent := 0, cpuUsage := 0,
    threshold := 5.0, isTracking := false }

/-- The sum `v + x` of a value and a number when it is a number; `none` when it is `NaN`
(`undefined`) or a string (a string, an array or an object on the left). -/
def JSVal.plusNumber (v : JSVal) (x : ℚ) : Option ℚ :=
  match v with
  | .num q => some (q + x)
  | .null => some (0 + x)
  | .bool b => some ((if b then 1 else 0) + x)
  | .undefined => none
  | .str _ => none
  | .arr _ => none
  | .obj _ => none

/-- What one call of `updateMetrics` leaves: the tracker fields, and the number
`totalCarbon` handed to `updateUI`, `updateBadgeStatus` and `updateCurrentStats`, which
write no tracker field.  `totalCarbon` is `none` when the call returns or throws before the
sum is made, or the sum is no number. -/
structure Tick where
  state : Tracker
  totalCarbon : Option ℚ

/-- Source `updateMetrics`, `now` being its reading of `Date.now()`. -/
def updateMetrics (s : Tracker) (now : Int) : Tick :=
  if !s.isTracking then { state := s, totalCarbon := none }
  else
    -- `Math.floor((now - this.startTime) / 1000)`: integer division by 1000 rounds down
    let s := { s with timeSpent := (now - s.startTime) / 1000 }
    -- Calculate energy usage (simplified model)
    let baseEnergyPerSecond : ℚ := 0.1
    let cpuMultiplier : ℚ := 1 + (s.cpuUsage / 10000)
    let s := { s with energyUsage := s.energyUsage + baseEnergyPerSecond * cpuMultiplier }
    -- Calculate total carbon footprint
    match s.carbonData with
    | none => { state := s, totalCarbon := none }
    | some carbonData =>
      let timeBasedCarbon : ℚ := ((s.timeSpent : ℚ) / 60) * 0.5
      let energyBasedCarbon : ℚ := s.energyUsage * 0.0005
      { state := s,
        totalCarbon :=
          (carbonData.carbonPerView.plusNumber timeBasedCarbon).map
            (fun sum => sum + energyBasedCarbon) }

/-- The callback of the `PerformanceObserver`, for one entry of the given duration. -/
def observeEntry (s : Tracker) (duration : ℚ) : Tracker :=
  if duration > 16 then { s with cpuUsage := s.cpuUsage + duration } else s

/-- Source `pauseTracking`. -/
def pauseTracking (s : Tracker) : Tracker := { s with isTracking := false }

/-- Source `resumeTracking`, `now` being its reading of `Date.now()`. -/
def resumeTracking (s : Tracker) (now : Int) : Tracker :=
  { s with isTracking := true, startTime := now - (s.timeSpent * 1000) }

/-- What can happen to a tracker while the page is hidden: the interval fires, or the
performance observer reports an entry. -/
inductive TrackerEvent where
  | tick (now : Int)
  | performanceEntry (duration : ℚ)

/-- One event applied to the tracker fields. -/
def TrackerEvent.apply (s : Tracker) : TrackerEvent → Tracker
  | .tick now => (updateMetrics s now).state
  | .performanceEntry duration => observeEntry s duration

/-- The on-page counter as `updateBadgeStatus` writes it: the class `high-usage` of the
tracker element, the text and the classes `earned` and `lost` of the badge element, and the
`display` style of the alternatives button (`none`: the button is not in the page). -/
structure Widget where
  highUsage : Bool
  badgeText : String
  earned : Bool
  lost : Bool
  alternativesDisplay : Option String
  deriving DecidableEq

/-- Source `updateBadgeStatus` for a number `totalCarbon`; the widget is `none` when the
tracker or the badge element is not in the page, and the function then returns at once. -/
def updateBadgeStatus (threshold : ℚ) (widget : Option Widget) (totalCarbon : ℚ) :
    Option Widget :=
  match widget with
  | none => none
  | some w =>
    if totalCarbon > threshold then
      -- High carbon usage
      some { highUsage := true, badgeText := "⚠️", earned := false, lost := true,
             alternativesDisplay := w.alternativesDisplay.map (fun _ => "block") }
    else
      -- Low carbon usage
      some { highUsage := false, badgeText := "🌱", earned := true, lost := false,
             alternativesDisplay := w.alternativesDisplay.map (fun _ => "none") }

/-! ## Achievements (`CarbonKarmaPopup`) -/

/-- A JavaScript number that may be no finite value. -/
inductive JSNum where
  | fin (q : ℚ)
  | nan
  | posInf
  | negInf
  deriving DecidableEq

/-- The quotient `a / b` of two finite numbers (the sign of a zero is not modelled). -/
def jsDiv (a b : ℚ) : JSNum :=
  if b ≠ 0 then .fin (a / b)
  else if a > 0 then .posInf
  else if a < 0 then .negInf
  else .nan

/-- The comparison `x > y` with a finite right side: false on `NaN`. -/
def JSNum.gt (x : JSNum) (y : ℚ) : Bool :=
  match x with
  | .fin q => decide (q > y)
  | .posInf => true
  | .negInf => false
  | .nan => false

/-- The `condition` of the achievement `time-saver` on the user data `GET_USER_DATA`
returns; reading a field of a missing `stats` or `badges` document throws. -/
def timeSaverCondition (data : Storage) : Except JSError Bool :=
  match data.stats with
  | none => .error .typeError
  | some stats =>
    if stats.totalTimeSpent > 3600 then
      match data.badges with
      | none => .error .typeError
      | some badges => .ok ((jsDiv badges.greenSessions badges.totalSessions).gt 0.8)
    else .ok false

/-- The class `updateBadgesTab` gives an achievement item from its condition. -/
def achievementClass (condition : Except JSError Bool) : Except JSError String :=
  condition.map (fun unlocked => if unlocked then "unlocked" else "locked")

/-- An estimate as the remote service might have produced it, used in examples. -/
def sampleEstimate : FootprintEstimate :=
  { carbonPerView := .num 0.5, cleanerThan := .num 80, renewable := .bool true,
    bytes := .num 1000, timestamp := 1000, estimated := .undefined }

/-- A cache holding `sampleEstimate` for one page, written at clock reading 1000. -/
def sampleCache : ApiCache :=
  [(cacheKey "https://example.com/", { data := sampleEstimate, timestamp := 1000 })]

/-- A tracker two seconds into a page whose estimate is 4.6 g, used in examples. -/
def sampleTracker : Tracker :=
  { startTime := 1000, carbonData := some { carbonPerView := .num 4.6 }, energyUsage := 0.2,
    timeSpent := 2, cpuUsage := 5000, threshold := 5.0, isTracking := true }

/-- A widget showing the low state with the alternatives button hidden, used in examples. -/
def sampleWidget : Widget :=
  { highUsage := false, badgeText := "🌱", earned := true, lost := false,
    alternativesDisplay := some "none" }

/-- A stored ledger with three badges, used in examples. -/
def sampleLedger : Storage :=
  { badges := some { leafBadges := 3, totalSessions := 4, greenSessions := 4, carbonSaved := 2 },
    stats := some { totalCarbonEmitted := 12, totalTimeSpent := 240, sitesVisited := 4 } }

end CarbonKarma

/-! ## Theorems: badge ledger -/

namespace CarbonKarma

theorem ledger_finalize (stored : Storage) (sessionData : SessionData) :
    (finalize stored sessionData).ledger = (updateBadges stored sessionData).1 := rfl

/-- One `updateBadges` keeps the badge count non-negative. -/
theorem updateBadges_leaf_nonneg (stored : Storage) (sessionData : SessionData)
    (h : 0 ≤ stored.ledger.leafBadges) : 0 ≤ (updateBadges stored sessionData).1.leafBadges := by
  unfold updateBadges
  by_cases hlt : sessionData.carbonEmitted < sessionData.threshold
  · simp only [hlt, if_true]
    linarith
  · simp only [hlt, if_false]
    exact le_max_left _ _

/-- One `updateBadges` keeps `greenSessions ≤ totalSessions`. -/
theorem updateBadges_green_le_total (stored : Storage) (sessionData : SessionData)
    (h : stored.ledger.greenSessions ≤ stored.ledger.totalSessions) :
    (updateBadges stored sessionData).1.greenSessions ≤
      (updateBadges stored sessionData).1.totalSessions := by
  unfold updateBadges
  by_cases hlt : sessionData.carbonEmitted < sessionData.threshold
  · simp only [hlt, if_true]
    linarith
  · simp only [hlt, if_false]
    linarith

/-- Any invariant of the ledger that one `updateBadges` keeps is kept by a sequence. -/
theorem finalizeAll_invariant (P : Badges → Prop)
    (step : ∀ (stored : Storage) (sessionData : SessionData),
      P stored.ledger → P (updateBadges stored sessionData).1)
    (sessions : List SessionData) :
    ∀ stored : Storage, P stored.ledger → P (finalizeAll stored sessions).ledger := by
  induction sessions with
  | nil => intro stored h; exact h
  | cons sessionData rest ih =>
    intro stored h
    have h1 : P (finalize stored sessionData).ledger := by
      rw [ledger_finalize]; exact step stored sessionData h
    exact ih (finalize stored sessionData) h1

/-- C1: from the default ledger, or from any stored ledger whose `leafBadges` is at least 0,
every finite sequence of finalized sessions leaves `leafBadges` at least 0. -/
theorem C1_leafBadges_nonneg (stored : Storage) (sessions : List SessionData)
    (h : stored.badges = none ∨ 0 ≤ stored.ledger.leafBadges) :
    0 ≤ (finalizeAll stored sessions).ledger.leafBadges := by
  have h0 : 0 ≤ stored.ledger.leafBadges := by
    rcases h with h | h
    · simp [Storage.ledger, h, defaultBadges]
    · exact h
  exact finalizeAll_invariant (fun b => 0 ≤ b.leafBadges) updateBadges_leaf_nonneg sessions
    stored h0

/-- Witness of C1: two penalised sessions and one rewarded one from the empty storage. -/
theorem C1_leafBadges_nonneg_witness :
    (emptyStorage.badges = none ∨ 0 ≤ emptyStorage.ledger.leafBadges) ∧
    0 ≤ (finalizeAll emptyStorage
      [⟨7, 30, 5⟩, ⟨9, 12, 5⟩, ⟨3, 40, 5⟩]).ledger.leafBadges :=
  ⟨Or.inl rfl, C1_leafBadges_nonneg emptyStorage _ (Or.inl rfl)⟩

/-- C2: from the default ledger (a storage never written, or the one `initializeStorage`
writes), every finite sequence of finalized sessions has `greenSessions ≤ totalSessions`. -/
theorem C2_greenSessions_le_totalSessions (sessions : List SessionData) :
    (finalizeAll emptyStorage sessions).ledger.greenSessions ≤
        (finalizeAll emptyStorage sessions).ledger.totalSessions ∧
    (finalizeAll (initializeStorage emptyStorage) sessions).ledger.greenSessions ≤
        (finalizeAll (initializeStorage emptyStorage) sessions).ledger.totalSessions := by
  constructor
  · exact finalizeAll_invariant (fun b => b.greenSessions ≤ b.totalSessions)
      updateBadges_green_le_total sessions emptyStorage (le_refl _)
  · exact finalizeAll_invariant (fun b => b.greenSessions ≤ b.totalSessions)
      updateBadges_green_le_total sessions (initializeStorage emptyStorage) (le_refl _)

/-- C3: a session with `carbonEmitted < threshold` adds exactly 1 to `greenSessions`, exactly
1 to `leafBadges` and exactly `threshold - carbonEmitted` to `carbonSaved`. -/
theorem C3_reward_branch (stored : Storage) (sessionData : SessionData)
    (h : sessionData.carbonEmitted < sessionData.threshold) :
    (updateBadges stored sessionData).1.greenSessions = stored.ledger.greenSessions + 1 ∧
    (updateBadges stored sessionData).1.leafBadges = stored.ledger.leafBadges + 1 ∧
    (updateBadges stored sessionData).1.carbonSaved =
      stored.ledger.carbonSaved + (sessionData.threshold - sessionData.carbonEmitted) := by
  simp [updateBadges, h]

/-- Witness of C3: threshold 5.0 and carbonEmitted 3.0 add 1, 1 and 2.0. -/
theorem C3_reward_branch_witness :
    ((3 : ℚ) < 5) ∧
    (updateBadges emptyStorage ⟨3, 60, 5⟩).1.greenSessions = 1 ∧
    (updateBadges emptyStorage ⟨3, 60, 5⟩).1.leafBadges = 1 ∧
    (updateBadges emptyStorage ⟨3, 60, 5⟩).1.carbonSaved = 2 := by
  have h := C3_reward_branch emptyStorage ⟨3, 60, 5⟩ (by norm_num)
  refine ⟨by norm_num, ?_, ?_, ?_⟩
  · rw [h.1]; norm_num [Storage.ledger, emptyStorage, defaultBadges]
  · rw [h.2.1]; norm_num [Storage.ledger, emptyStorage, defaultBadges]
  · rw [h.2.2]; norm_num [Storage.ledger, emptyStorage, defaultBadges]

/-- C4: a session with `carbonEmitted ≥ threshold` (equality included) sets `leafBadges` to
`max(0, leafBadges - 1)` and leaves `greenSessions` and `carbonSaved` unchanged. -/
theorem C4_penalty_branch (stored : Storage) (sessionData : SessionData)
    (h : sessionData.threshold ≤ sessionData.carbonEmitted) :
    (updateBadges stored sessionData).1.leafBadges = max 0 (stored.ledger.leafBadges - 1) ∧
    (updateBadges stored sessionData).1.greenSessions = stored.ledger.greenSessions ∧
    (updateBadges stored sessionData).1.carbonSaved = stored.ledger.carbonSaved := by
  simp [updateBadges, not_lt.mpr h]

/-- Witness of C4: threshold 5.0 and carbonEmitted 7.0 on a ledger with no badge: the badge
count stays 0, `greenSessions` and `carbonSaved` stay as they were. -/
theorem C4_penalty_branch_witness :
    ((5 : ℚ) ≤ 7) ∧
    (updateBadges emptyStorage ⟨7, 60, 5⟩).1.leafBadges = 0 ∧
    (updateBadges emptyStorage ⟨7, 60, 5⟩).1.greenSessions = 0 ∧
    (updateBadges emptyStorage ⟨7, 60, 5⟩).1.carbonSaved = 0 := by
  have h := C4_penalty_branch emptyStorage ⟨7, 60, 5⟩ (by norm_num)
  refine ⟨by norm_num, ?_, ?_, ?_⟩
  · rw [h.1]; norm_num [Storage.ledger, emptyStorage, defaultBadges]
  · rw [h.2.1]; rfl
  · rw [h.2.2]; rfl

/-- C5: whichever branch is taken, `updateBadges` adds exactly 1 to `totalSessions`, exactly 1
to `sitesVisited`, the session's `carbonEmitted` to `totalCarbonEmitted` and the session's
`timeSpent` to `totalTimeSpent`. -/
theorem C5_session_totals (stored : Storage) (sessionData : SessionData) :
    (updateBadges stored sessionData).1.totalSessions = stored.ledger.totalSessions + 1 ∧
    (updateBadges stored sessionData).2.sitesVisited = stored.usage.sitesVisited + 1 ∧
    (updateBadges stored sessionData).2.totalCarbonEmitted =
      stored.usage.totalCarbonEmitted + sessionData.carbonEmitted ∧
    (updateBadges stored sessionData).2.totalTimeSpent =
      stored.usage.totalTimeSpent + sessionData.timeSpent := by
  unfold updateBadges
  by_cases hlt : sessionData.carbonEmitted < sessionData.threshold <;> simp [hlt]

/-! ## Theorems: footprint estimator -/

/-- On a URL the platform parses, the heuristic returns its object, whose `carbonPerView`
is decided by the two domain lists. -/
theorem estimateCarbonFootprint_valid (url h : String) (now : Int)
    (hh : hostname url = some h) :
    estimateCarbonFootprint url now =
      .ok { carbonPerView := .num
              (if highCarbonDomains.any (fun d => includes h d) then 4.6 * 2.5
               else if lowCarbonDomains.any (fun d => includes h d) then 4.6 * 0.6
               else 4.6),
            cleanerThan := .num 50, renewable := .bool false, bytes := .num 2000000,
            timestamp := now, estimated := .bool true } := by
  simp only [estimateCarbonFootprint, hh]

/-- On a string the platform does not parse, the heuristic throws. -/
theorem estimateCarbonFootprint_invalid (url : String) (now : Int)
    (hh : hostname url = none) :
    estimateCarbonFootprint url now = .error .typeError := by
  simp only [estimateCarbonFootprint, hh]

/-- C6 as stated fails: a valid URL with `youtube.com` in its query, not in its hostname,
gets the base value 4.6 and not 11.5. -/
theorem C6_counterexample :
    includes "https://example.com/watch?ref=youtube.com" "youtube.com" = true ∧
    hostname "https://example.com/watch?ref=youtube.com" = some "example.com" ∧
    estimateCarbonFootprint "https://example.com/watch?ref=youtube.com" 0 =
      .ok { carbonPerView := .num 4.6, cleanerThan := .num 50, renewable := .bool false,
            bytes := .num 2000000, timestamp := 0, estimated := .bool true } ∧
    JSVal.num 4.6 ≠ JSVal.num 11.5 := by
  refine ⟨by decide, by decide, ?_, ?_⟩
  · rw [estimateCarbonFootprint_valid _ "example.com" 0 (by decide)]
    have h1 : highCarbonDomains.any (fun d => includes "example.com" d) = false := by decide
    have h2 : lowCarbonDomains.any (fun d => includes "example.com" d) = false := by decide
    simp [h1, h2]
  · intro h
    injection h with h
    norm_num at h

/-- C6 (amended): for every valid URL whose hostname contains `youtube.com`,
`estimateCarbonFootprint` returns `carbonPerView = 4.6 × 2.5 = 11.5`. -/
theorem C6_youtube_hostname (url h : String) (now : Int)
    (hh : hostname url = some h) (hy : includes h "youtube.com" = true) :
    ∃ e, estimateCarbonFootprint url now = .ok e ∧ e.carbonPerView = .num (4.6 * 2.5) ∧
      e.carbonPerView = .num 11.5 := by
  have hhigh : highCarbonDomains.any (fun d => includes h d) = true := by
    simp [highCarbonDomains, hy]
  refine ⟨_, estimateCarbonFootprint_valid url h now hh, ?_, ?_⟩
  · simp [hhigh]
  · simp [hhigh]; norm_num

/-- Witness of C6 (amended): a YouTube watch page. -/
theorem C6_youtube_hostname_witness :
    hostname "https://www.youtube.com/watch?v=1" = some "www.youtube.com" ∧
    includes "www.youtube.com" "youtube.com" = true ∧
    ∃ e, estimateCarbonFootprint "https://www.youtube.com/watch?v=1" 7 = .ok e ∧
      e.carbonPerView = .num (4.6 * 2.5) ∧ e.carbonPerView = .num 11.5 :=
  ⟨by decide, by decide,
    C6_youtube_hostname "https://www.youtube.com/watch?v=1" "www.youtube.com" 7
      (by decide) (by decide)⟩

/-- C7: for every valid URL the heuristic returns 4.6 × 2.5 when the hostname contains one
of the four high-carbon names, otherwise 4.6 × 0.6 when it contains one of the three
low-carbon names, otherwise 4.6; the high-carbon list wins, and the object always has
`estimated = true`, `cleanerThan = 50`, `renewable = false` and `bytes = 2000000`. -/
theorem C7_heuristic (url h : String) (now : Int) (hh : hostname url = some h) :
    ∃ e, estimateCarbonFootprint url now = .ok e ∧
      e.carbonPerView = .num
        (if includes h "youtube.com" = true ∨ includes h "netflix.com" = true ∨
            includes h "amazon.com" = true ∨ includes h "facebook.com" = true then 4.6 * 2.5
         else if includes h "wikipedia.org" = true ∨ includes h "stackoverflow.com" = true ∨
            includes h "github.com" = true then 4.6 * 0.6
         else 4.6) ∧
      e.estimated = .bool true ∧ e.cleanerThan = .num 50 ∧ e.renewable = .bool false ∧
      e.bytes = .num 2000000 := by
  refine ⟨_, estimateCarbonFootprint_valid url h now hh, ?_, rfl, rfl, rfl, rfl⟩
  simp [highCarbonDomains, lowCarbonDomains]

/-- Witness of C7: a hostname on both lists takes the high-carbon factor. -/
theorem C7_heuristic_witness :
    hostname "https://github.com.youtube.com/a" = some "github.com.youtube.com" ∧
    ∃ e, estimateCarbonFootprint "https://github.com.youtube.com/a" 3 = .ok e ∧
      e.carbonPerView = .num
        (if includes "github.com.youtube.com" "youtube.com" = true ∨
            includes "github.com.youtube.com" "netflix.com" = true ∨
            includes "github.com.youtube.com" "amazon.com" = true ∨
            includes "github.com.youtube.com" "facebook.com" = true then 4.6 * 2.5
         else if includes "github.com.youtube.com" "wikipedia.org" = true ∨
            includes "github.com.youtube.com" "stackoverflow.com" = true ∨
            includes "github.com.youtube.com" "github.com" = true then 4.6 * 0.6
         else 4.6) ∧
      e.estimated = .bool true ∧ e.cleanerThan = .num 50 ∧ e.renewable = .bool false ∧
      e.bytes = .num 2000000 :=
  ⟨by decide, C7_heuristic "https://github.com.youtube.com/a" "github.com.youtube.com" 3
    (by decide)⟩

/-! ## Theorems: footprint cache -/

/-- The cache key determines the URL: the cache is keyed by the exact URL. -/
theorem cacheKey_injective (url1 url2 : String) (h : cacheKey url1 = cacheKey url2) :
    url1 = url2 := by
  have hd : (cacheKey url1).data = (cacheKey url2).data := by rw [h]
  simp only [cacheKey, String.data_append] at hd
  exact String.ext (List.append_cancel_left hd)

/-- A key just written is read back. -/
theorem ApiCache.get_set (cache : ApiCache) (key : String) (entry : CacheEntry) :
    (cache.set key entry).get key = some entry := by
  simp [ApiCache.get, ApiCache.set, List.lookup]

/-- A fresh entry is served from the cache: same estimate, same cache, no remote lookup. -/
theorem getCarbonFootprint_hit (apiCache : ApiCache) (url : String) (call : Call)
    (entry : CacheEntry) (hget : apiCache.get (cacheKey url) = some entry)
    (hfresh : call.now - entry.timestamp < 3600000) :
    getCarbonFootprint apiCache url call =
      { result := .ok entry.data, apiCache := apiCache, lookups := [] } := by
  simp [getCarbonFootprint, hget, hfresh]

/-- Without a fresh entry the remote service is asked, whatever it answers. -/
theorem getCarbonFootprint_miss (apiCache : ApiCache) (url : String) (call : Call)
    (hmiss : ∀ entry, apiCache.get (cacheKey url) = some entry →
      3600000 ≤ call.now - entry.timestamp) :
    getCarbonFootprint apiCache url call =
      match fetchFootprint url call with
      | .ok result =>
        { result := .ok result,
          apiCache := apiCache.set (cacheKey url) { data := result, timestamp := call.tCache },
          lookups := [url] }
      | .error _ =>
        { result := estimateCarbonFootprint url call.tEstimate, apiCache := apiCache,
          lookups := [url] } := by
  unfold getCarbonFootprint
  cases hget : apiCache.get (cacheKey url) with
  | none => simp [hget]
  | some entry =>
    have h := hmiss entry hget
    simp [hget, not_lt.mpr h]

/-- After a miss the lookups are exactly the one for this URL. -/
theorem getCarbonFootprint_miss_lookups (apiCache : ApiCache) (url : String) (call : Call)
    (hmiss : ∀ entry, apiCache.get (cacheKey url) = some entry →
      3600000 ≤ call.now - entry.timestamp) :
    (getCarbonFootprint apiCache url call).lookups = [url] := by
  rw [getCarbonFootprint_miss apiCache url call hmiss]
  cases fetchFootprint url call <;> rfl

/-- C8: an entry for the exact URL younger than 3600000 ms is returned unchanged without a
remote lookup; with no entry, or an entry aged 3600000 ms or more, a remote lookup is made;
the key under which an entry is looked up belongs to no other URL. -/
theorem C8_cache_ttl (apiCache : ApiCache) (url : String) (call : Call) :
    (∀ entry, apiCache.get (cacheKey url) = some entry →
      call.now - entry.timestamp < 3600000 →
      getCarbonFootprint apiCache url call =
        { result := .ok entry.data, apiCache := apiCache, lookups := [] }) ∧
    (apiCache.get (cacheKey url) = none →
      (getCarbonFootprint apiCache url call).lookups = [url]) ∧
    (∀ entry, apiCache.get (cacheKey url) = some entry →
      3600000 ≤ call.now - entry.timestamp →
      (getCarbonFootprint apiCache url call).lookups = [url]) ∧
    (∀ other, cacheKey other = cacheKey url → other = url) := by
  refine ⟨fun entry hget hfresh => getCarbonFootprint_hit apiCache url call entry hget hfresh,
    fun hnone => ?_, fun entry hget hstale => ?_,
    fun other hkey => cacheKey_injective other url hkey⟩
  · apply getCarbonFootprint_miss_lookups
    intro entry hget
    rw [hnone] at hget
    cases hget
  · apply getCarbonFootprint_miss_lookups
    intro entry2 hget2
    rw [hget] at hget2
    cases hget2
    exact hstale

/-- Witness of C8: an entry written at 1000 is served at 3600999 (1 ms before the TTL ends);
at 3601001 (1 ms past the TTL) and on an empty cache the remote service is asked. -/
theorem C8_cache_ttl_witness :
    getCarbonFootprint sampleCache "https://example.com/"
        ⟨3600999, .networkError, 3600999, 3600999, 3600999⟩ =
      { result := .ok sampleEstimate, apiCache := sampleCache, lookups := [] } ∧
    (getCarbonFootprint [] "https://example.com/"
        ⟨3600999, .networkError, 3600999, 3600999, 3600999⟩).lookups =
      ["https://example.com/"] ∧
    (getCarbonFootprint sampleCache "https://example.com/"
        ⟨3601001, .networkError, 3601001, 3601001, 3601001⟩).lookups =
      ["https://example.com/"] :=
  ⟨(C8_cache_ttl sampleCache "https://example.com/"
      ⟨3600999, .networkError, 3600999, 3600999, 3600999⟩).1
      { data := sampleEstimate, timestamp := 1000 } (by simp [sampleCache, ApiCache.get, List.lookup])
      (by decide),
   (C8_cache_ttl [] "https://example.com/"
      ⟨3600999, .networkError, 3600999, 3600999, 3600999⟩).2.1 rfl,
   (C8_cache_ttl sampleCache "https://example.com/"
      ⟨3601001, .networkError, 3601001, 3601001, 3601001⟩).2.2.1
      { data := sampleEstimate, timestamp := 1000 } (by simp [sampleCache, ApiCache.get, List.lookup])
      (by decide)⟩

/-- A failing remote lookup (network error, or a status outside 200..299) makes the `try`
block throw. -/
theorem fetchFootprint_failing (url : String) (call : Call)
    (hfail : call.remote = .networkError ∨
      ∃ status body, call.remote = .response status body ∧ statusOk status = false) :
    ∃ err, fetchFootprint url call = .error err := by
  rcases hfail with h | ⟨status, body, h, hs⟩
  · exact ⟨.networkError, by simp [fetchFootprint, h]⟩
  · exact ⟨.apiRequestFailed status, by simp [fetchFootprint, h, hs]⟩

/-- A 2xx answer with a JSON payload other than `null`, for a valid URL, lets the `try`
block run to its end. -/
theorem fetchFootprint_success (url h : String) (call : Call) (status : Nat) (data : JSVal)
    (hr : call.remote = .response status (some data)) (hs : statusOk status = true)
    (hnull : data ≠ .null) (hundef : data ≠ .undefined) (hh : hostname url = some h) :
    ∃ e, fetchFootprint url call = .ok e := by
  have hest := estimateCarbonFootprint_valid url h call.tEstimate hh
  cases data with
  | undefined => exact absurd rfl hundef
  | null => exact absurd rfl hnull
  | bool b =>
    exact ⟨_, by simp [fetchFootprint, hr, hs, JSVal.getProp, JSVal.truthy, hest, Except.map,
      bind, Except.bind, pure, Except.pure]; rfl⟩
  | num q =>
    exact ⟨_, by simp [fetchFootprint, hr, hs, JSVal.getProp, JSVal.truthy, hest, Except.map,
      bind, Except.bind, pure, Except.pure]; rfl⟩
  | str q =>
    exact ⟨_, by simp [fetchFootprint, hr, hs, JSVal.getProp, JSVal.truthy, hest, Except.map,
      bind, Except.bind, pure, Except.pure]; rfl⟩
  | arr q =>
    exact ⟨_, by simp [fetchFootprint, hr, hs, JSVal.getProp, JSVal.truthy, hest, Except.map,
      bind, Except.bind, pure, Except.pure]; rfl⟩
  | obj fields =>
    by_cases hc : ((fields.lookup "c").getD .undefined).truthy = true
    · exact ⟨_, by simp [fetchFootprint, hr, hs, JSVal.getProp, hc, Except.map,
        bind, Except.bind, pure, Except.pure]; rfl⟩
    · exact ⟨_, by simp [fetchFootprint, hr, hs, JSVal.getProp, hc, hest, Except.map,
        bind, Except.bind, pure, Except.pure]; rfl⟩

/-- C9 as stated fails for a failing lookup: at time 0 the network fails and the call returns
the heuristic estimate, which is not cached; a second call for the same URL at time 1000
asks the remote service again and returns another estimate. -/
theorem C9_counterexample :
    getCarbonFootprint [] "https://example.com/" ⟨0, .networkError, 1, 2, 3⟩ =
      { result := .ok { carbonPerView := .num 4.6, cleanerThan := .num 50,
                        renewable := .bool false, bytes := .num 2000000, timestamp := 1,
                        estimated := .bool true },
        apiCache := [], lookups := ["https://example.com/"] } ∧
    (1000 : Int) < 0 + 3600000 ∧
    getCarbonFootprint [] "https://example.com/"
        ⟨1000, .response 200 (some (.obj [("c", .num 0.5)])), 1001, 1002, 1003⟩ =
      { result := .ok { carbonPerView := .num 0.5, cleanerThan := .num 50,
                        renewable := .bool false, bytes := .num 0, timestamp := 1002,
                        estimated := .undefined },
        apiCache := [(cacheKey "https://example.com/",
          { data := { carbonPerView := .num 0.5, cleanerThan := .num 50,
                      renewable := .bool false, bytes := .num 0, timestamp := 1002,
                      estimated := .undefined },
            timestamp := 1003 })],
        lookups := ["https://example.com/"] } ∧
    JSVal.num 4.6 ≠ JSVal.num 0.5 ∧
    ["https://example.com/"] ≠ ([] : List String) := by
  have hh : hostname "https://example.com/" = some "example.com" := by decide
  have h1 : highCarbonDomains.any (fun d => includes "example.com" d) = false := by decide
  have h2 : lowCarbonDomains.any (fun d => includes "example.com" d) = false := by decide
  have hest := estimateCarbonFootprint_valid "https://example.com/" "example.com" 1 hh
  simp only [h1, h2] at hest
  have h05 : ¬ ((0.5 : ℚ) = 0) := by norm_num
  refine ⟨?_, by decide, ?_, ?_, by decide⟩
  · simp [getCarbonFootprint, ApiCache.get, fetchFootprint, hest]
  · simp [getCarbonFootprint, ApiCache.get, ApiCache.set, fetchFootprint, statusOk,
      JSVal.getProp, JSVal.truthy, JSVal.orElse, List.lookup, bind, Except.bind, pure,
      Except.pure, h05]
  · intro h
    injection h with h
    norm_num at h

/-- C9 (amended): an estimate that `getCarbonFootprint` builds from a successful remote
lookup (a 2xx answer with a JSON payload other than `null`, for a valid URL) is cached by
URL for one hour: a second call for the same URL at any time before `t + 3600000` ms, the
clock not running backwards during the first call, returns the same estimate, leaves the
cache as it is and performs no remote lookup. -/
theorem C9_success_cached (apiCache : ApiCache) (url h : String) (call1 call2 : Call)
    (status : Nat) (data : JSVal)
    (hmiss : ∀ entry, apiCache.get (cacheKey url) = some entry →
      3600000 ≤ call1.now - entry.timestamp)
    (hr : call1.remote = .response status (some data)) (hs : statusOk status = true)
    (hnull : data ≠ .null) (hundef : data ≠ .undefined) (hh : hostname url = some h)
    (hclock : call1.now ≤ call1.tCache)
    (hsoon : call2.now < call1.now + 3600000) :
    ∃ e, (getCarbonFootprint apiCache url call1).result = .ok e ∧
      (getCarbonFootprint apiCache url call1).lookups = [url] ∧
      getCarbonFootprint (getCarbonFootprint apiCache url call1).apiCache url call2 =
        { result := .ok e, apiCache := (getCarbonFootprint apiCache url call1).apiCache,
          lookups := [] } := by
  obtain ⟨e, he⟩ := fetchFootprint_success url h call1 status data hr hs hnull hundef hh
  have h1 := getCarbonFootprint_miss apiCache url call1 hmiss
  rw [he] at h1
  simp only at h1
  rw [h1]
  refine ⟨e, rfl, rfl, ?_⟩
  exact getCarbonFootprint_hit _ url call2 { data := e, timestamp := call1.tCache }
    (ApiCache.get_set apiCache (cacheKey url) _) (by show call2.now - call1.tCache < 3600000; linarith)

/-- Witness of C9 (amended): the service answers 200 with `c = 0.5` at time 0; the call one
second before the hour is over is served from the cache. -/
theorem C9_success_cached_witness :
    ∃ e, (getCarbonFootprint [] "https://example.com/"
        ⟨0, .response 200 (some (.obj [("c", .num 0.5)])), 1, 2, 3⟩).result = .ok e ∧
      (getCarbonFootprint [] "https://example.com/"
        ⟨0, .response 200 (some (.obj [("c", .num 0.5)])), 1, 2, 3⟩).lookups =
        ["https://example.com/"] ∧
      getCarbonFootprint (getCarbonFootprint [] "https://example.com/"
          ⟨0, .response 200 (some (.obj [("c", .num 0.5)])), 1, 2, 3⟩).apiCache
          "https://example.com/" ⟨3599000, .networkError, 3599001, 3599002, 3599003⟩ =
        { result := .ok e,
          apiCache := (getCarbonFootprint [] "https://example.com/"
            ⟨0, .response 200 (some (.obj [("c", .num 0.5)])), 1, 2, 3⟩).apiCache,
          lookups := [] } :=
  C9_success_cached [] "https://example.com/" "example.com"
    ⟨0, .response 200 (some (.obj [("c", .num 0.5)])), 1, 2, 3⟩
    ⟨3599000, .networkError, 3599001, 3599002, 3599003⟩ 200 (.obj [("c", .num 0.5)])
    (by intro entry hget; cases hget) rfl (by decide) (by intro h; cases h)
    (by intro h; cases h) (by decide) (by decide) (by decide)

/-- C10 as stated fails: for a string that is no URL the fallback itself throws, and the
call ends with that exception. -/
theorem C10_counterexample :
    hostname "not a url" = none ∧
    getCarbonFootprint [] "not a url" ⟨0, .networkError, 1, 2, 3⟩ =
      { result := .error .typeError, apiCache := [], lookups := ["not a url"] } := by
  have hh : hostname "not a url" = none := by decide
  refine ⟨hh, ?_⟩
  simp [getCarbonFootprint, ApiCache.get, fetchFootprint,
    estimateCarbonFootprint_invalid "not a url" 1 hh]

/-- C10 (amended): for every valid URL and every failing remote lookup (network error or a
status outside 200..299), `getCarbonFootprint` throws nothing: it returns the heuristic
estimate `estimateCarbonFootprint(url)`, flagged `estimated = true`. -/
theorem C10_fallback_on_failure (apiCache : ApiCache) (url h : String) (call : Call)
    (hh : hostname url = some h)
    (hmiss : ∀ entry, apiCache.get (cacheKey url) = some entry →
      3600000 ≤ call.now - entry.timestamp)
    (hfail : call.remote = .networkError ∨
      ∃ status body, call.remote = .response status body ∧ statusOk status = false) :
    (getCarbonFootprint apiCache url call).result = estimateCarbonFootprint url call.tEstimate ∧
    ∃ e, (getCarbonFootprint apiCache url call).result = .ok e ∧ e.estimated = .bool true := by
  obtain ⟨err, herr⟩ := fetchFootprint_failing url call hfail
  have h1 := getCarbonFootprint_miss apiCache url call hmiss
  rw [herr] at h1
  simp only at h1
  rw [h1]
  exact ⟨rfl, _, estimateCarbonFootprint_valid url h call.tEstimate hh, rfl⟩

/-- Witness of C10 (amended): the service answers 503 for a valid URL. -/
theorem C10_fallback_on_failure_witness :
    (getCarbonFootprint [] "https://example.com/" ⟨0, .response 503 none, 1, 2, 3⟩).result =
      estimateCarbonFootprint "https://example.com/" 1 ∧
    ∃ e, (getCarbonFootprint [] "https://example.com/" ⟨0, .response 503 none, 1, 2, 3⟩).result =
      .ok e ∧ e.estimated = .bool true :=
  C10_fallback_on_failure [] "https://example.com/" "example.com"
    ⟨0, .response 503 none, 1, 2, 3⟩ (by decide) (by intro entry hget; cases hget)
    (Or.inr ⟨503, none, rfl, by decide⟩)

/-! ## Theorems: malformed payload, regional intensity, ledger again -/

/-- A 2xx answer whose payload is an object with a falsy `c`, for a valid URL: the field
`carbonPerView` of the result holds the whole object the heuristic returns. -/
theorem fetchFootprint_falsy_c (url h : String) (call : Call) (status : Nat)
    (fields : List (String × JSVal))
    (hr : call.remote = .response status (some (.obj fields))) (hs : statusOk status = true)
    (hc : ((fields.lookup "c").getD .undefined).truthy = false)
    (hh : hostname url = some h) :
    ∃ e est, fetchFootprint url call = .ok e ∧
      estimateCarbonFootprint url call.tEstimate = .ok est ∧
      e.carbonPerView = est.toJSVal := by
  obtain ⟨est, hest⟩ : ∃ est, estimateCarbonFootprint url call.tEstimate = .ok est :=
    ⟨_, estimateCarbonFootprint_valid url h call.tEstimate hh⟩
  refine ⟨{ carbonPerView := est.toJSVal,
            cleanerThan := ((fields.lookup "p").getD .undefined).orElse (.num 50),
            renewable := ((fields.lookup "green").getD .undefined).orElse (.bool false),
            bytes := ((fields.lookup "bytes").getD .undefined).orElse (.num 0),
            timestamp := call.tResult, estimated := .undefined }, est, ?_, hest, rfl⟩
  simp [fetchFootprint, hr, hs, JSVal.getProp, hc, hest, Except.map, bind, Except.bind,
    pure, Except.pure]

/-- C11 fails on the code: for `https://example.com/` and a 200 answer whose payload has no
`c`, `c = null` or `c = 0`, the field `carbonPerView` of the returned estimate is the whole
heuristic object, not the heuristic's number 4.6. -/
theorem C11_carbonPerView_holds_object :
    (∀ payload ∈ [JSVal.obj [], JSVal.obj [("c", .null)], JSVal.obj [("c", .num 0)]],
      (getCarbonFootprint [] "https://example.com/"
          ⟨0, .response 200 (some payload), 1, 2, 3⟩).result =
        .ok { carbonPerView :=
                .obj [("carbonPerView", .num 4.6), ("cleanerThan", .num 50),
                  ("renewable", .bool false), ("bytes", .num 2000000), ("timestamp", .num 1),
                  ("estimated", .bool true)],
              cleanerThan := .num 50, renewable := .bool false, bytes := .num 0,
              timestamp := 2, estimated := .undefined }) ∧
    estimateCarbonFootprint "https://example.com/" 1 =
      .ok { carbonPerView := .num 4.6, cleanerThan := .num 50, renewable := .bool false,
            bytes := .num 2000000, timestamp := 1, estimated := .bool true } ∧
    JSVal.obj [("carbonPerView", .num 4.6), ("cleanerThan", .num 50),
        ("renewable", .bool false), ("bytes", .num 2000000), ("timestamp", .num 1),
        ("estimated", .bool true)] ≠ JSVal.num 4.6 := by
  have hh : hostname "https://example.com/" = some "example.com" := by decide
  have h1 : highCarbonDomains.any (fun d => includes "example.com" d) = false := by decide
  have h2 : lowCarbonDomains.any (fun d => includes "example.com" d) = false := by decide
  have hest := estimateCarbonFootprint_valid "https://example.com/" "example.com" 1 hh
  simp only [h1, h2] at hest
  refine ⟨?_, by simpa using hest, by intro h; cases h⟩
  intro payload hp
  simp only [List.mem_cons, List.mem_singleton, List.mem_nil_iff, or_false] at hp
  rcases hp with rfl | rfl | rfl <;>
    simp [getCarbonFootprint, ApiCache.get, fetchFootprint, statusOk, JSVal.getProp,
      JSVal.truthy, JSVal.orElse, List.lookup, hest, Except.map, bind, Except.bind, pure,
      Except.pure, FootprintEstimate.toJSVal]

/-- A code that is neither in the table nor a name inherited from `Object.prototype` gets
the global average. -/
theorem getRegionalCarbonIntensity_unlisted (country : String)
    (htable : intensityData.lookup country = none)
    (hproto : objectPrototypeNames.contains country = false) :
    getRegionalCarbonIntensity country = .value 475 := by
  simp only [getRegionalCarbonIntensity, htable, hproto, Bool.false_eq_true, if_false]

/-- C17 fails on the code for `IS`: the table lists 0 for it, and `0 || 475` is 475.  The
twelve other listed codes get their table value. -/
theorem C17_IS_gets_global_average :
    intensityData.lookup "IS" = some 0 ∧
    getRegionalCarbonIntensity "IS" = .value 475 ∧
    Intensity.value 475 ≠ Intensity.value 0 ∧
    getRegionalCarbonIntensity "US" = .value 386 ∧
    getRegionalCarbonIntensity "GB" = .value 233 ∧
    getRegionalCarbonIntensity "DE" = .value 338 ∧
    getRegionalCarbonIntensity "FR" = .value 57 ∧
    getRegionalCarbonIntensity "CA" = .value 130 ∧
    getRegionalCarbonIntensity "AU" = .value 634 ∧
    getRegionalCarbonIntensity "JP" = .value 518 ∧
    getRegionalCarbonIntensity "CN" = .value 681 ∧
    getRegionalCarbonIntensity "IN" = .value 708 ∧
    getRegionalCarbonIntensity "BR" = .value 82 ∧
    getRegionalCarbonIntensity "NO" = .value 17 ∧
    getRegionalCarbonIntensity "SE" = .value 13 ∧
    getRegionalCarbonIntensity "ZZ" = .value 475 := by
  decide

/-- One `updateBadges` keeps `leafBadges ≤ greenSessions`. -/
theorem updateBadges_leaf_le_green (stored : Storage) (sessionData : SessionData)
    (h : stored.ledger.leafBadges ≤ stored.ledger.greenSessions ∧
      0 ≤ stored.ledger.greenSessions) :
    (updateBadges stored sessionData).1.leafBadges ≤
        (updateBadges stored sessionData).1.greenSessions ∧
      0 ≤ (updateBadges stored sessionData).1.greenSessions := by
  unfold updateBadges
  by_cases hlt : sessionData.carbonEmitted < sessionData.threshold
  · simp only [hlt, if_true]
    constructor <;> linarith [h.1, h.2]
  · simp only [hlt, if_false]
    refine ⟨max_le h.2 (by linarith [h.1]), h.2⟩

/-- C18: from the default ledger (a storage never written, or the one `initializeStorage`
writes), every finite sequence of finalized sessions has `leafBadges ≤ greenSessions`. -/
theorem C18_leafBadges_le_greenSessions (sessions : List SessionData) :
    (finalizeAll emptyStorage sessions).ledger.leafBadges ≤
        (finalizeAll emptyStorage sessions).ledger.greenSessions ∧
    (finalizeAll (initializeStorage emptyStorage) sessions).ledger.leafBadges ≤
        (finalizeAll (initializeStorage emptyStorage) sessions).ledger.greenSessions := by
  constructor
  · exact (finalizeAll_invariant
      (fun b => b.leafBadges ≤ b.greenSessions ∧ 0 ≤ b.greenSessions)
      updateBadges_leaf_le_green sessions emptyStorage ⟨le_refl _, le_refl _⟩).1
  · exact (finalizeAll_invariant
      (fun b => b.leafBadges ≤ b.greenSessions ∧ 0 ≤ b.greenSessions)
      updateBadges_leaf_le_green sessions (initializeStorage emptyStorage)
      ⟨le_refl _, le_refl _⟩).1

/-! ## Theorems: session accumulator -/

/-- A tick of a tracker that is not tracking changes nothing. -/
theorem updateMetrics_not_tracking (s : Tracker) (now : Int) (h : s.isTracking = false) :
    (updateMetrics s now).state = s := by
  simp [updateMetrics, h]

/-- The fields a tick of a tracking tracker writes. -/
theorem updateMetrics_tracking (s : Tracker) (now : Int) (h : s.isTracking = true) :
    (updateMetrics s now).state =
      { s with timeSpent := (now - s.startTime) / 1000,
               energyUsage := s.energyUsage + 0.1 * (1 + s.cpuUsage / 10000) } := by
  unfold updateMetrics
  simp only [h, Bool.not_true, Bool.false_eq_true, if_false]
  cases s.carbonData <;> rfl

/-- C12: one tick of a tracking tracker sets `energyUsage` to
`energyUsage + 0.1 × (1 + cpuUsage / 10000)` and, for a numeric `carbonPerView`, computes
`totalCarbon = carbonPerView + (timeSpent / 60) × 0.5 + energyUsage × 0.0005` from the
values of `timeSpent` and `energyUsage` after the tick's own update. -/
theorem C12_tick_formulas (s : Tracker) (now : Int) (h : s.isTracking = true) :
    (updateMetrics s now).state.energyUsage =
      s.energyUsage + 0.1 * (1 + s.cpuUsage / 10000) ∧
    ∀ (carbonData : CarbonData) (q : ℚ), s.carbonData = some carbonData →
      carbonData.carbonPerView = .num q →
      (updateMetrics s now).totalCarbon =
        some (q + (((updateMetrics s now).state.timeSpent : ℚ) / 60) * 0.5 +
          (updateMetrics s now).state.energyUsage * 0.0005) := by
  refine ⟨by rw [updateMetrics_tracking s now h], ?_⟩
  intro carbonData q hcd hq
  rw [updateMetrics_tracking s now h]
  simp [updateMetrics, h, hcd, hq, JSVal.plusNumber]

/-- Witness of C12: the sample tracker at clock reading 4200: three whole seconds, energy
0.2 + 0.1 × 1.5 = 0.35, total 4.6 + 0.025 + 0.000175. -/
theorem C12_tick_formulas_witness :
    sampleTracker.isTracking = true ∧
    (updateMetrics sampleTracker 4200).state.energyUsage = 0.35 ∧
    (updateMetrics sampleTracker 4200).totalCarbon = some 4.625175 := by
  have h := C12_tick_formulas sampleTracker 4200 rfl
  refine ⟨rfl, ?_, ?_⟩
  · rw [h.1]; norm_num [sampleTracker]
  · rw [h.2 { carbonPerView := .num 4.6 } 4.6 rfl rfl, updateMetrics_tracking _ _ rfl]
    norm_num [sampleTracker]

/-- C13 as stated fails: a tick that fires 2500 ms after `startTime` on a tracker with
`timeSpent = 0` sets `timeSpent` to 2, and one that fires after 999 ms leaves it 0. -/
theorem C13_counterexample :
    ({ sampleTracker with startTime := 0, timeSpent := 0 } : Tracker).isTracking = true ∧
    (updateMetrics { sampleTracker with startTime := 0, timeSpent := 0 } 2500).state.timeSpent
      = 2 ∧
    (updateMetrics { sampleTracker with startTime := 0, timeSpent := 0 } 999).state.timeSpent
      = 0 ∧
    (2 : Int) ≠ 0 + 1 ∧ (0 : Int) ≠ 0 + 1 := by
  decide

/-- C13 (amended): one tick of a tracking tracker sets `timeSpent` to the whole seconds
between `startTime` and the clock reading, `floor((now - startTime) / 1000)`; that is
`timeSpent + 1` exactly when the tick fires in the second that starts `timeSpent + 1`
seconds after `startTime`. -/
theorem C13_timeSpent_from_clock (s : Tracker) (now : Int) (h : s.isTracking = true) :
    (updateMetrics s now).state.timeSpent = (now - s.startTime) / 1000 ∧
    ((updateMetrics s now).state.timeSpent = s.timeSpent + 1 ↔
      1000 * (s.timeSpent + 1) ≤ now - s.startTime ∧
        now - s.startTime < 1000 * (s.timeSpent + 2)) := by
  rw [updateMetrics_tracking s now h]
  refine ⟨rfl, ?_⟩
  show (now - s.startTime) / 1000 = s.timeSpent + 1 ↔ _
  omega

/-- Witness of C13 (amended): the sample tracker (started at 1000, two seconds counted) at
clock reading 4200. -/
theorem C13_timeSpent_from_clock_witness :
    sampleTracker.isTracking = true ∧
    (updateMetrics sampleTracker 4200).state.timeSpent = (4200 - 1000) / 1000 ∧
    ((updateMetrics sampleTracker 4200).state.timeSpent = 2 + 1 ↔
      1000 * ((2 : Int) + 1) ≤ 4200 - 1000 ∧ (4200 : Int) - 1000 < 1000 * (2 + 2)) :=
  ⟨rfl, C13_timeSpent_from_clock sampleTracker 4200 rfl⟩

/-- Away from equality the badge shown and the ledger agree: the low state is shown exactly
when `updateBadges` rewards the session. -/
theorem updateBadgeStatus_agrees_off_threshold (w : Widget) (stored : Storage)
    (c t timeSpent : ℚ) (hne : c ≠ t) :
    ((updateBadgeStatus t (some w) c).map (fun v => v.earned) = some true ↔
      (updateBadges stored ⟨c, timeSpent, t⟩).1.greenSessions =
        stored.ledger.greenSessions + 1) := by
  rcases lt_or_gt_of_ne hne with hlt | hgt
  · have h1 : ¬ c > t := not_lt.mpr (le_of_lt hlt)
    simp [updateBadgeStatus, updateBadges, h1, hlt]
  · have h1 : ¬ c < t := not_lt.mpr (le_of_lt hgt)
    simp [updateBadgeStatus, updateBadges, h1, hgt]

/-- C14 fails on the code at `totalCarbon = threshold = 5`: `updateBadgeStatus` shows the low
state (badge earned, alternatives hidden), while `updateBadges` on the same carbon value and
threshold takes the penalty branch (a badge lost, `greenSessions` as before). -/
theorem C14_disagree_at_threshold :
    updateBadgeStatus 5 (some sampleWidget) 5 =
      some { highUsage := false, badgeText := "🌱", earned := true, lost := false,
             alternativesDisplay := some "none" } ∧
    (updateBadges sampleLedger ⟨5, 60, 5⟩).1.greenSessions = 4 ∧
    (updateBadges sampleLedger ⟨5, 60, 5⟩).1.leafBadges = 2 ∧
    sampleLedger.ledger.greenSessions = 4 ∧ sampleLedger.ledger.leafBadges = 3 := by
  refine ⟨?_, ?_, ?_, rfl, rfl⟩
  · simp [updateBadgeStatus, sampleWidget]
  · simp [updateBadges, sampleLedger, Storage.ledger]
  · norm_num [updateBadges, sampleLedger, Storage.ledger]

/-- While the tracker is paused, ticks and performance entries leave `isTracking`,
`timeSpent` and `energyUsage` as they are. -/
theorem paused_events_frozen (events : List TrackerEvent) :
    ∀ s : Tracker, s.isTracking = false →
      (events.foldl TrackerEvent.apply s).isTracking = false ∧
      (events.foldl TrackerEvent.apply s).timeSpent = s.timeSpent ∧
      (events.foldl TrackerEvent.apply s).energyUsage = s.energyUsage := by
  induction events with
  | nil => intro s h; exact ⟨h, rfl, rfl⟩
  | cons e rest ih =>
    intro s h
    have hstep : (TrackerEvent.apply s e).isTracking = false ∧
        (TrackerEvent.apply s e).timeSpent = s.timeSpent ∧
        (TrackerEvent.apply s e).energyUsage = s.energyUsage := by
      cases e with
      | tick now =>
        show (updateMetrics s now).state.isTracking = false ∧
          (updateMetrics s now).state.timeSpent = s.timeSpent ∧
          (updateMetrics s now).state.energyUsage = s.energyUsage
        rw [updateMetrics_not_tracking s now h]
        exact ⟨h, rfl, rfl⟩
      | performanceEntry duration =>
        simp only [TrackerEvent.apply, observeEntry]
        split_ifs
        · exact ⟨h, rfl, rfl⟩
        · exact ⟨h, rfl, rfl⟩
    obtain ⟨h1, h2, h3⟩ := ih (TrackerEvent.apply s e) hstep.1
    exact ⟨h1, h2.trans hstep.2.1, h3.trans hstep.2.2⟩

/-- C15: between `pauseTracking` (at clock time `p`) and `resumeTracking` (at `p + d`) any
ticks and performance entries leave `timeSpent` and `energyUsage` unchanged, and the first
tick `k` ms after the resume yields `timeSpent = timeSpent before the pause + floor(k / 1000)`,
whatever the duration `d` of the pause. -/
theorem C15_pause_excluded (s : Tracker) (events : List TrackerEvent) (p d k : Int) :
    (events.foldl TrackerEvent.apply (pauseTracking s)).timeSpent = s.timeSpent ∧
    (events.foldl TrackerEvent.apply (pauseTracking s)).energyUsage = s.energyUsage ∧
    (updateMetrics (resumeTracking (events.foldl TrackerEvent.apply (pauseTracking s)) (p + d))
        (p + d + k)).state.timeSpent = s.timeSpent + k / 1000 := by
  obtain ⟨_, h2, h3⟩ := paused_events_frozen events (pauseTracking s) rfl
  refine ⟨h2, h3, ?_⟩
  rw [updateMetrics_tracking _ _ rfl]
  show (p + d + k - (p + d -
    (events.foldl TrackerEvent.apply (pauseTracking s)).timeSpent * 1000)) / 1000 = _
  rw [h2]
  show (p + d + k - (p + d - s.timeSpent * 1000)) / 1000 = s.timeSpent + k / 1000
  omega

/-- Witness of C15: the sample tracker (two seconds counted) is paused at 3000 and resumed
5 s later; the ticks and the long task in between change nothing, and the tick 1500 ms
after the resume counts three seconds. -/
theorem C15_pause_excluded_witness :
    ([TrackerEvent.tick 4000, TrackerEvent.performanceEntry 20, TrackerEvent.tick 5000].foldl
        TrackerEvent.apply (pauseTracking sampleTracker)).timeSpent = sampleTracker.timeSpent ∧
    ([TrackerEvent.tick 4000, TrackerEvent.performanceEntry 20, TrackerEvent.tick 5000].foldl
        TrackerEvent.apply (pauseTracking sampleTracker)).energyUsage =
      sampleTracker.energyUsage ∧
    (updateMetrics (resumeTracking
        ([TrackerEvent.tick 4000, TrackerEvent.performanceEntry 20, TrackerEvent.tick 5000].foldl
          TrackerEvent.apply (pauseTracking sampleTracker)) (3000 + 5000))
        (3000 + 5000 + 1500)).state.timeSpent = sampleTracker.timeSpent + 1500 / 1000 :=
  C15_pause_excluded sampleTracker
    [TrackerEvent.tick 4000, TrackerEvent.performanceEntry 20, TrackerEvent.tick 5000]
    3000 5000 1500

/-! ## Theorems: achievements -/

/-- C16: on user data whose ledger has no session (`totalSessions = 0`, `greenSessions = 0`),
whatever `stats.totalTimeSpent` is, the `time-saver` condition throws nothing and is false,
so the achievement is shown locked. -/
theorem C16_timeSaver_no_sessions (data : Storage) (badges : Badges) (stats : Stats)
    (hb : data.badges = some badges) (hs : data.stats = some stats)
    (htotal : badges.totalSessions = 0) (hgreen : badges.greenSessions = 0) :
    timeSaverCondition data = .ok false ∧
    achievementClass (timeSaverCondition data) = .ok "locked" := by
  have hcond : timeSaverCondition data = .ok false := by
    simp only [timeSaverCondition, hb, hs, htotal, hgreen]
    split_ifs
    · simp [jsDiv, JSNum.gt]
    · rfl
  exact ⟨hcond, by rw [hcond]; rfl⟩

/-- Witness of C16: a ledger without sessions next to more than an hour of recorded time,
so that the division `0 / 0` is reached. -/
theorem C16_timeSaver_no_sessions_witness :
    timeSaverCondition
        { badges := some defaultBadges,
          stats := some { totalCarbonEmitted := 0, totalTimeSpent := 4000, sitesVisited := 0 } } =
      .ok false ∧
    achievementClass (timeSaverCondition
        { badges := some defaultBadges,
          stats := some { totalCarbonEmitted := 0, totalTimeSpent := 4000, sitesVisited := 0 } }) =
      .ok "locked" :=
  C16_timeSaver_no_sessions _ defaultBadges
    { totalCarbonEmitted := 0, totalTimeSpent := 4000, sitesVisited := 0 } rfl rfl rfl rfl

end CarbonKarma
